import Mathlib

/-!
Verification development for the Socaio audience-analysis tool.

The repository is a Next.js application with two serverless API routes
(`pages/api/auto-select.js` and `pages/api/generate-report.js`) and one page
component (`pages/index.js`).  This file gives a shallow embedding of the
data model and the operations of those files:

* the fixed taxonomy of audience characteristics (`fixedOptions` on the
  server, `characteristics` in the page component);
* a model of `JSON.parse` restricted to the JSON fragment the endpoints
  exchange (objects, arrays, strings, booleans, null, integer numerals;
  a fractional or exponent numeral is rejected by the model, which is
  irrelevant to the texts considered here);
* the two request handlers, as total functions from the request method,
  body fields, the configured credential and the outcome of the single
  outbound inference call, to the HTTP response;
* the page-side functions `applyAutoSelections`, `toggleCharacteristic`,
  `handleQuerySubmit`, `generateReport` and the constant `fallbackReport`.

JavaScript exceptions are modelled by explicit outcome datatypes; the
JavaScript falsiness checks on request-body fields are modelled by `Option`
together with an emptiness test on strings (an array value is always truthy
in JavaScript, even when empty, and is therefore truthy exactly when the
field is present).
-/

/-- A JSON value, as produced by `JSON.parse`. -/
inductive JsValue where
  | null : JsValue
  | bool (b : Bool) : JsValue
  | num (n : Int) : JsValue
  | str (s : String) : JsValue
  | arr (elems : List JsValue) : JsValue
  | obj (fields : List (String × JsValue)) : JsValue
deriving Repr

/-- The four-category selection record used by the auto-select endpoint. -/
structure Selections where
  ages : List String
  genders : List String
  personality_traits : List String
  interests : List String
deriving Repr, DecidableEq

/-- The fixed option catalog embedded in `pages/api/auto-select.js`. -/
structure Taxonomy where
  ages : List String
  genders : List String
  personality_traits : List String
  interests : List String
deriving Repr, DecidableEq

/-- `fixedOptions` from the auto-select handler. -/
def fixedOptions : Taxonomy :=
  { ages := ["18-", "18-24", "24-30", "30-36", "36-42", "42-48", "48-54",
             "54-60", "60-66", "66-72", "72+"]
    genders := ["male", "female", "non-binary"]
    personality_traits := ["analytical", "empathetic", "adventurous",
             "conscientious", "spontaneous", "pragmatic", "idealistic",
             "assertive", "diplomatic", "introspective"]
    interests := ["technology", "music", "visual arts", "sports",
             "literature", "finance", "gaming", "travel", "culinary",
             "environment"] }

/-- The option catalog rendered by the page component `pages/index.js`
(the third category is keyed `personality` there). -/
structure Characteristics where
  ages : List String
  genders : List String
  personality : List String
  interests : List String
deriving Repr, DecidableEq

/-- `characteristics` from the page component. -/
def characteristics : Characteristics :=
  { ages := ["18-", "18-24", "24-30", "30-36", "36-42", "42-48", "48-54",
             "54-60", "60-66", "66-72", "72+"]
    genders := ["male", "female", "non-binary"]
    personality := ["analytical", "empathetic", "adventurous",
             "conscientious", "spontaneous", "pragmatic", "idealistic",
             "assertive", "diplomatic", "introspective"]
    interests := ["technology", "music", "visual arts", "sports",
             "literature", "finance", "gaming", "travel", "culinary",
             "environment"] }

/-- All labels of the fixed taxonomy, across the four categories. -/
def taxonomyLabels : List String :=
  fixedOptions.ages ++ fixedOptions.genders ++
    fixedOptions.personality_traits ++ fixedOptions.interests

/-- The hardcoded fallback selections returned by the auto-select handler
when parsing of the inference response fails. -/
def defaultSelections : Selections :=
  { ages := ["24-30", "30-36"]
    genders := ["male", "female"]
    personality_traits := ["analytical", "pragmatic"]
    interests := ["technology"] }

/-- Encode a `Selections` record as the JSON object the handler sends with
`res.json`. -/
def selectionsToJs (s : Selections) : JsValue :=
  .obj [("ages", .arr (s.ages.map .str)),
        ("genders", .arr (s.genders.map .str)),
        ("personality_traits", .arr (s.personality_traits.map .str)),
        ("interests", .arr (s.interests.map .str))]

/-- Skip JSON whitespace. -/
def skipWs : List Char → List Char
  | [] => []
  | c :: cs =>
    if c = ' ' ∨ c = '\n' ∨ c = '\t' ∨ c = '\r' then skipWs cs else c :: cs

/-- Read the body of a JSON string after the opening quote, returning the
characters and the remaining input after the closing quote. -/
def parseStrChars : List Char → Option (List Char × List Char)
  | [] => none
  | c :: cs =>
    if c = '"' then some ([], cs)
    else if c = '\\' then
      match cs with
      | [] => none
      | e :: cs2 =>
        let esc : Option Char :=
          if e = '"' then some '"'
          else if e = '\\' then some '\\'
          else if e = '/' then some '/'
          else if e = 'n' then some '\n'
          else if e = 't' then some '\t'
          else if e = 'r' then some '\r'
          else none
        match esc with
        | some ch => (parseStrChars cs2).map (fun p => (ch :: p.1, p.2))
        | none => none
    else (parseStrChars cs).map (fun p => (c :: p.1, p.2))

/-- Split a leading run of decimal digits from the input. -/
def takeDigits : List Char → List Char × List Char
  | [] => ([], [])
  | c :: cs =>
    if c.isDigit then
      let p := takeDigits cs
      (c :: p.1, p.2)
    else ([], c :: cs)

/-- Numeric value of a digit string. -/
def digitsToNat (ds : List Char) : Nat :=
  ds.foldl (fun a c => a * 10 + (c.toNat - 48)) 0

/-- Parse a JSON integer numeral (fractional and exponent forms are outside
the modelled fragment and are rejected). -/
def parseNum (input : List Char) : Option (JsValue × List Char) :=
  let signed : Bool × List Char :=
    match input with
    | '-' :: cs => (true, cs)
    | cs => (false, cs)
  match takeDigits signed.2 with
  | ([], _) => none
  | (ds, rest) =>
    match rest with
    | c :: _ =>
      if c = '.' ∨ c = 'e' ∨ c = 'E' then none
      else some (.num (if signed.1 then -(digitsToNat ds : Int)
                       else (digitsToNat ds : Int)), rest)
    | [] => some (.num (if signed.1 then -(digitsToNat ds : Int)
                        else (digitsToNat ds : Int)), [])

mutual

/-- Parse one JSON value from the input, fuelled by `fuel`. -/
def parseValue (fuel : Nat) (input : List Char) : Option (JsValue × List Char) :=
  match fuel with
  | 0 => none
  | fuel + 1 =>
    match skipWs input with
    | [] => none
    | c :: cs =>
      if c = '"' then
        (parseStrChars cs).map (fun p => (.str (String.mk p.1), p.2))
      else if c = 't' then
        match cs with
        | 'r' :: 'u' :: 'e' :: rest => some (.bool true, rest)
        | _ => none
      else if c = 'f' then
        match cs with
        | 'a' :: 'l' :: 's' :: 'e' :: rest => some (.bool false, rest)
        | _ => none
      else if c = 'n' then
        match cs with
        | 'u' :: 'l' :: 'l' :: rest => some (.null, rest)
        | _ => none
      else if c = '[' then
        match skipWs cs with
        | ']' :: rest => some (.arr [], rest)
        | rest =>
          match parseElems fuel rest with
          | some p => some (.arr p.1, p.2)
          | none => none
      else if c = '\x7b' then
        match skipWs cs with
        | '\x7d' :: rest => some (.obj [], rest)
        | rest =>
          match parseMembers fuel rest with
          | some p => some (.obj p.1, p.2)
          | none => none
      else if c = '-' ∨ c.isDigit then parseNum (c :: cs)
      else none

/-- Parse the elements of a non-empty JSON array, including the closing
bracket. -/
def parseElems (fuel : Nat) (input : List Char) : Option (List JsValue × List Char) :=
  match fuel with
  | 0 => none
  | fuel + 1 =>
    match parseValue fuel input with
    | none => none
    | some (v, rest) =>
      match skipWs rest with
      | ',' :: rest2 =>
        match parseElems fuel rest2 with
        | some p => some (v :: p.1, p.2)
        | none => none
      | ']' :: rest2 => some ([v], rest2)
      | _ => none

/-- Parse the members of a non-empty JSON object, including the closing
brace. -/
def parseMembers (fuel : Nat) (input : List Char) : Option (List (String × JsValue) × List Char) :=
  match fuel with
  | 0 => none
  | fuel + 1 =>
    match skipWs input with
    | '"' :: cs =>
      match parseStrChars cs with
      | none => none
      | some (key, rest) =>
        match skipWs rest with
        | ':' :: rest2 =>
          match parseValue fuel rest2 with
          | none => none
          | some (v, rest3) =>
            match skipWs rest3 with
            | ',' :: rest4 =>
              match parseMembers fuel rest4 with
              | some p => some ((String.mk key, v) :: p.1, p.2)
              | none => none
            | '\x7d' :: rest4 => some ([(String.mk key, v)], rest4)
            | _ => none
        | _ => none
    | _ => none

end

/-- Model of `JSON.parse` on the exchanged fragment: `some` on success,
`none` where the JavaScript builtin would throw a `SyntaxError`. -/
def jsonParse (s : String) : Option JsValue :=
  match parseValue (s.length + 1) s.data with
  | some (v, rest) => if (skipWs rest).isEmpty then some v else none
  | none => none

/-- HTTP request methods accepted or rejected by the handlers. -/
inductive Method where
  | GET | POST | OPTIONS | PUT | DELETE | PATCH
deriving Repr, DecidableEq

/-- Outcome of the single outbound `fetch` to the chat-completion endpoint,
as observed by the handler: the promise rejects (`netError`), the response
arrives with a non-2xx status (`httpError`), or the response is 2xx and the
first completion choice carries `content` (`success`). -/
inductive InferenceOutcome where
  | netError : InferenceOutcome
  | httpError (status : Nat) : InferenceOutcome
  | success (content : String) : InferenceOutcome
deriving Repr, DecidableEq

/-- What a handler produced: the HTTP status, the JSON body (`none` for the
bare `res.end()` answering a preflight), and whether the outbound inference
call was issued. -/
structure HandlerResult where
  status : Nat
  body : Option JsValue
  calledInference : Bool
deriving Repr

/-- JavaScript truthiness of an optional string body field or environment
variable: truthy exactly when present and non-empty. -/
def truthyStr (o : Option String) : Bool :=
  match o with
  | some s => !s.isEmpty
  | none => false

/-- JavaScript truthiness of an optional array body field: an array is
always truthy, even when empty, so the field is truthy exactly when it is
present. -/
def truthyList (o : Option (List String)) : Bool :=
  o.isSome

/-- The JSON error object `res.json` sends on the failure paths. -/
def errorJs (msg : String) : JsValue :=
  .obj [("error", .str msg)]

/-- The classification prompt the auto-select handler embeds in its request
body, built from `fixedOptions` and the submitted content. -/
def autoSelectPrompt (newsContent : String) : String :=
  "Analyze this news content and select the most relevant audience characteristics from the following fixed options. Return your selections in JSON format:\n\nAvailable options:\n- Ages: ["
    ++ String.intercalate ", " fixedOptions.ages
    ++ "]\n- Genders: ["
    ++ String.intercalate ", " fixedOptions.genders
    ++ "]\n- Personality Traits: ["
    ++ String.intercalate ", " fixedOptions.personality_traits
    ++ "]\n- Interests: ["
    ++ String.intercalate ", " fixedOptions.interests
    ++ "]\n\nReturn format:\n\x7b\n  \"ages\": [\"24-30\", \"30-36\"],\n  \"genders\": [\"male\", \"female\"],\n  \"personality_traits\": [\"analytical\", \"pragmatic\"],\n  \"interests\": [\"technology\", \"finance\"]\n\x7d\n\nNews content to analyze: \""
    ++ newsContent ++ "\""

/-- The analysis prompt the generate-report handler embeds in its request
body, built from the joined selected traits and the submitted content. -/
def generateReportPrompt (newsContent : String) (selectedTraits : List String) : String :=
  "Provide a detailed analysis of how an audience with these characteristics would likely react to this news:\n\nAudience Characteristics: "
    ++ String.intercalate ", " selectedTraits
    ++ "\n\nNews Content: \"" ++ newsContent
    ++ "\"\n\nPlease provide:\n1. Overall emotional reaction (positive/negative/mixed/neutral)\n2. Key concerns or interests this audience would have\n3. Likely engagement behavior (share, comment, ignore, etc.)\n4. Potential misconceptions or areas of confusion\n5. Recommended messaging adjustments for this audience\n6. Cultural or demographic-specific considerations\n\nFormat your response as a comprehensive analysis report."

/-- Parameters of one outbound chat-completion request. -/
structure InferenceRequest where
  model : String
  prompt : String
  max_tokens : Nat
  temperature : ℚ
deriving Repr, DecidableEq

/-- The request body the auto-select handler sends to the inference
service. -/
def autoSelectRequest (newsContent : String) : InferenceRequest :=
  { model := "gpt-3.5-turbo"
    prompt := autoSelectPrompt newsContent
    max_tokens := 500
    temperature := 3 / 10 }

/-- The request body the generate-report handler sends to the inference
service. -/
def generateReportRequest (newsContent : String) (selectedTraits : List String) : InferenceRequest :=
  { model := "gpt-3.5-turbo"
    prompt := generateReportPrompt newsContent selectedTraits
    max_tokens := 2000
    temperature := 7 / 10 }

/-- The auto-select handler of `pages/api/auto-select.js`: preflight, method
check, body validation, credential check, then the inference call whose
outcome is `outcome`; a successful call has its content parsed with
`JSON.parse` and returned verbatim, a parse failure yields the hardcoded
fallback selections, and a failed call reaches the outer catch, which
answers 500. -/
def autoSelectHandler (method : Method) (newsContent : Option String)
    (apiKey : Option String) (outcome : InferenceOutcome) : HandlerResult :=
  if method = .OPTIONS then ⟨200, none, false⟩
  else if method ≠ .POST then ⟨405, some (errorJs "Method not allowed"), false⟩
  else if !truthyStr newsContent then
    ⟨400, some (errorJs "News content is required"), false⟩
  else if !truthyStr apiKey then
    ⟨500, some (errorJs "OpenAI API key not configured"), false⟩
  else
    match outcome with
    | .netError => ⟨500, some (errorJs "Failed to analyze content"), true⟩
    | .httpError _ => ⟨500, some (errorJs "Failed to analyze content"), true⟩
    | .success content =>
      match jsonParse content with
      | some selections => ⟨200, some selections, true⟩
      | none => ⟨200, some (selectionsToJs defaultSelections), true⟩

/-- The generate-report handler of `pages/api/generate-report.js`:
preflight, method check, body validation of both fields, credential check,
then the inference call; a successful call has its content wrapped in a
`report` object, and a failed call reaches the outer catch, which answers
500. -/
def generateReportHandler (method : Method) (newsContent : Option String)
    (selectedTraits : Option (List String)) (apiKey : Option String)
    (outcome : InferenceOutcome) : HandlerResult :=
  if method = .OPTIONS then ⟨200, none, false⟩
  else if method ≠ .POST then ⟨405, some (errorJs "Method not allowed"), false⟩
  else if !(truthyStr newsContent && truthyList selectedTraits) then
    ⟨400, some (errorJs "News content and selected traits are required"), false⟩
  else if !truthyStr apiKey then
    ⟨500, some (errorJs "OpenAI API key not configured"), false⟩
  else
    match outcome with
    | .netError => ⟨500, some (errorJs "Failed to generate analysis report"), true⟩
    | .httpError _ => ⟨500, some (errorJs "Failed to generate analysis report"), true⟩
    | .success content => ⟨200, some (.obj [("report", .str content)]), true⟩

/-- Look up a key in a JSON object field list (first occurrence). -/
def lookupField : List (String × JsValue) → String → Option JsValue
  | [], _ => none
  | f :: rest, key => if f.1 = key then some f.2 else lookupField rest key

/-- JavaScript member access `v.key` on a parsed JSON value: the field when
`v` is an object holding it, otherwise the undefined/absent case. -/
def getField (v : JsValue) (key : String) : Option JsValue :=
  match v with
  | .obj fields => lookupField fields key
  | _ => none

/-- Read a list of JSON values as a list of strings, when every element is
a string. -/
def strElems : List JsValue → Option (List String)
  | [] => some []
  | .str s :: rest => (strElems rest).map (fun l => s :: l)
  | _ => none

/-- Read a JSON value as an array of strings, when it is one. -/
def asStrList : JsValue → Option (List String)
  | .arr elems => strElems elems
  | _ => none

/-- A JSON array of strings. -/
def strArr (l : List String) : JsValue :=
  .arr (l.map .str)

/-- The category field `key` of the parsed auto-select response, with the
page-side fallback `(autoSelections.key || [])`: an absent (or falsy) field
contributes the empty list.  A present truthy non-array field is outside
this model (the page-side spread would throw on it); every theorem using
this definition restricts such fields to absent-or-string-array. -/
def categoryLabels (v : JsValue) (key : String) : List String :=
  match getField v key with
  | some f => (asStrList f).getD []
  | none => []

/-- All labels carried by an auto-select response body, across the four
category keys the page component reads. -/
def suggestionLabels (v : JsValue) : List String :=
  categoryLabels v "ages" ++ categoryLabels v "genders" ++
    categoryLabels v "personality_traits" ++ categoryLabels v "interests"

/-- `applyAutoSelections` from the page component: spread the four category
arrays of the response into one list and form the selection set from it. -/
def applyAutoSelections (autoSelections : JsValue) : Finset String :=
  (suggestionLabels autoSelections).toFinset

/-- `toggleCharacteristic` from the page component: delete the value from
the selection set when present, insert it when absent. -/
def toggleCharacteristic (selected : Finset String) (value : String) : Finset String :=
  if value ∈ selected then selected.erase value else insert value selected

/-- Outcome of the page-side `fetch` to an API route, as observed by the
page: the promise chain throws, or a response arrives with `ok` flag and
JSON body. -/
inductive ClientOutcome where
  | throwErr : ClientOutcome
  | resp (ok : Bool) (body : JsValue) : ClientOutcome
deriving Repr

/-- Whitespace as trimmed by the JavaScript `String.trim`. -/
def isJsWs (c : Char) : Bool :=
  c = ' ' ∨ c = '\n' ∨ c = '\t' ∨ c = '\r'

/-- Model of the JavaScript `String.trim`: drop whitespace from both
ends. -/
def jsTrim (s : String) : String :=
  String.mk (((s.data.dropWhile isJsWs).reverse.dropWhile isJsWs).reverse)

/-- `handleQuerySubmit` from the page component, restricted to the
selection state: an all-whitespace query returns without touching the
state; otherwise the selection is cleared, and it becomes the applied
auto-selections when the auto-select route answered `ok`, while an error
response or a thrown fetch leaves it empty. -/
def handleQuerySubmit (prevSelected : Finset String) (currentQuery : String)
    (outcome : ClientOutcome) : Finset String :=
  if (jsTrim currentQuery).isEmpty then prevSelected
  else
    match outcome with
    | .resp true body => applyAutoSelections body
    | .resp false _ => ∅
    | .throwErr => ∅

/-- `fallbackReport` from the page component: the static report markup
rendered when the generate-report route fails. -/
def fallbackReport : String :=
  "\n    <h4>Overall Analysis</h4>\n    <p>This content would likely resonate with the selected demographic based on their characteristics.</p>\n    \n    <h4>Engagement Patterns</h4>\n    <p>Audience engagement patterns suggest varying levels of interest and emotional response based on the selected traits.</p>\n    \n    <h4>Recommendations</h4>\n    <ul>\n        <li>Tailor messaging to address specific concerns of this demographic</li>\n        <li>Consider cultural and generational factors when crafting communication strategy</li>\n        <li>Monitor engagement metrics to validate assumptions</li>\n        <li>Test different messaging approaches with this audience segment</li>\n    </ul>\n    \n    <p><em>Note: Full AI analysis temporarily unavailable. Using general recommendations.</em></p>\n  "

/-- What the page-side `generateReport` did: the resulting report content
and whether the generate-report route was fetched at all. -/
structure ReportAction where
  reportContent : String
  fetched : Bool
deriving Repr, DecidableEq

/-- Outcome of the page-side `fetch` to the generate-report route: throw,
or a response with `ok` flag and the `report` string of its body. -/
inductive ClientReportOutcome where
  | throwErr : ClientReportOutcome
  | resp (ok : Bool) (report : String) : ClientReportOutcome
deriving Repr, DecidableEq

/-- Whether the generate-report invocation failed from the page's point of
view: the fetch threw, or the response was not `ok`. -/
def reportCallFailed : ClientReportOutcome → Bool
  | .throwErr => true
  | .resp ok _ => !ok

/-- `generateReport` from the page component, restricted to the report
content: an empty selection returns immediately without fetching;
otherwise an `ok` response renders its `report` field and any failure
renders `fallbackReport`. -/
def generateReport (selectedCharacteristics : Finset String)
    (prevReport : String) (outcome : ClientReportOutcome) : ReportAction :=
  if selectedCharacteristics.card = 0 then ⟨prevReport, false⟩
  else
    match outcome with
    | .resp true r => ⟨r, true⟩
    | .resp false _ => ⟨fallbackReport, true⟩
    | .throwErr => ⟨fallbackReport, true⟩

/-- The `disabled` condition of the generate button in the page component. -/
def generateBtnDisabled (selectedCharacteristics : Finset String)
    (isLoading : Bool) : Bool :=
  decide (selectedCharacteristics.card = 0) || isLoading

/-- The category field `key` of `v` is either absent (`o = none`) or the
string array `l` (`o = some l`). -/
def optField (v : JsValue) (key : String) (o : Option (List String)) : Prop :=
  getField v key = o.map strArr

theorem strElems_map_str (l : List String) : strElems (l.map .str) = some l := by
  induction l with
  | nil => rfl
  | cons s rest ih => simp [strElems, ih]

theorem asStrList_strArr (l : List String) : asStrList (strArr l) = some l := by
  simp [asStrList, strArr, strElems_map_str]

theorem categoryLabels_of_optField {v : JsValue} {key : String}
    {o : Option (List String)} (h : optField v key o) :
    categoryLabels v key = o.getD [] := by
  cases o with
  | none => simp [optField] at h; simp [categoryLabels, h]
  | some l => simp [optField] at h; simp [categoryLabels, h, asStrList_strArr]

theorem autoSelectHandler_success {newsContent apiKey content : String}
    (h1 : truthyStr (some newsContent) = true)
    (h2 : truthyStr (some apiKey) = true) :
    autoSelectHandler .POST (some newsContent) (some apiKey) (.success content)
      = match jsonParse content with
        | some v => ⟨200, some v, true⟩
        | none => ⟨200, some (selectionsToJs defaultSelections), true⟩ := by
  simp [autoSelectHandler, h1, h2]

/-- C1 counterexample: an inference response carrying the label
`extraterrestrial`, which is in no taxonomy category, parses successfully
and is returned verbatim by the auto-select handler with status 200, so a
label outside the Taxonomy reaches the returned suggestion instead of being
dropped. -/
theorem claim1_counterexample :
    (autoSelectHandler .POST (some "Company X raises prices") (some "sk-test")
        (.success "\x7b\"ages\":[\"extraterrestrial\"]\x7d")).status = 200 ∧
    (autoSelectHandler .POST (some "Company X raises prices") (some "sk-test")
        (.success "\x7b\"ages\":[\"extraterrestrial\"]\x7d")).body =
      some (JsValue.obj [("ages", JsValue.arr [JsValue.str "extraterrestrial"])]) ∧
    "extraterrestrial" ∈ suggestionLabels
        (JsValue.obj [("ages", JsValue.arr [JsValue.str "extraterrestrial"])]) ∧
    "extraterrestrial" ∉ taxonomyLabels := by
  refine ⟨rfl, rfl, ?_, ?_⟩ <;> decide

/-- C1 amended: the hardcoded default suggestion only carries Taxonomy
labels, but a suggestion parsed from the inference response is returned
verbatim by the auto-select handler, with no filtering against the
Taxonomy. -/
theorem claim1_no_taxonomy_filter :
    (∀ l ∈ suggestionLabels (selectionsToJs defaultSelections), l ∈ taxonomyLabels) ∧
    (∀ (newsContent apiKey content : String) (v : JsValue),
      truthyStr (some newsContent) = true → truthyStr (some apiKey) = true →
      jsonParse content = some v →
      autoSelectHandler .POST (some newsContent) (some apiKey) (.success content)
        = ⟨200, some v, true⟩) := by
  constructor
  · decide
  · intro newsContent apiKey content v h1 h2 hp
    rw [autoSelectHandler_success h1 h2, hp]

/-- C1 amended, witness: the default labels seen concretely, and a concrete
parsed response returned verbatim. -/
theorem claim1_no_taxonomy_filter_witness :
    "24-30" ∈ taxonomyLabels ∧
    autoSelectHandler .POST (some "news") (some "key")
        (.success "\x7b\"ages\":[\"18-24\"]\x7d")
      = ⟨200, some (JsValue.obj [("ages", JsValue.arr [JsValue.str "18-24"])]), true⟩ :=
  ⟨claim1_no_taxonomy_filter.1 "24-30" (by decide),
   claim1_no_taxonomy_filter.2 "news" "key" "\x7b\"ages\":[\"18-24\"]\x7d"
     (JsValue.obj [("ages", JsValue.arr [JsValue.str "18-24"])]) rfl rfl rfl⟩

/-- C2 counterexample: when the inference invocation itself fails (the
fetch rejects), the auto-select handler answers 500 with an error object,
not the fixed default suggestion. -/
theorem claim2_counterexample :
    autoSelectHandler .POST (some "Company X raises prices") (some "sk-test")
        .netError
      = ⟨500, some (errorJs "Failed to analyze content"), true⟩ ∧
    autoSelectHandler .POST (some "Company X raises prices") (some "sk-test")
        .netError
      ≠ ⟨200, some (selectionsToJs defaultSelections), true⟩ :=
  ⟨rfl, fun h => absurd (congrArg HandlerResult.status h) (by decide)⟩

/-- C2 amended: an unparsable inference response yields the fixed default
suggestion with status 200, the same one on every such failure; an
invocation failure (transport error or non-success status) instead yields a
500 error object, after which the page layer leaves the selection empty. -/
theorem claim2_default_on_parse_failure :
    (∀ (newsContent apiKey content : String),
      truthyStr (some newsContent) = true → truthyStr (some apiKey) = true →
      jsonParse content = none →
      autoSelectHandler .POST (some newsContent) (some apiKey) (.success content)
        = ⟨200, some (selectionsToJs defaultSelections), true⟩) ∧
    (∀ (newsContent apiKey : String) (outcome : InferenceOutcome),
      truthyStr (some newsContent) = true → truthyStr (some apiKey) = true →
      (outcome = .netError ∨ ∃ s, outcome = .httpError s) →
      autoSelectHandler .POST (some newsContent) (some apiKey) outcome
        = ⟨500, some (errorJs "Failed to analyze content"), true⟩) ∧
    (∀ (prevSelected : Finset String) (query : String) (body : JsValue),
      (jsTrim query).isEmpty = false →
      handleQuerySubmit prevSelected query (.resp false body) = ∅) := by
  refine ⟨?_, ?_, ?_⟩
  · intro newsContent apiKey content h1 h2 hp
    rw [autoSelectHandler_success h1 h2, hp]
  · intro newsContent apiKey outcome h1 h2 hfail
    rcases hfail with h | ⟨s, h⟩ <;> subst h <;> simp [autoSelectHandler, h1, h2]
  · intro prevSelected query body hq
    simp [handleQuerySubmit, hq]

/-- C2 amended, witness: a concrete unparsable response yields the default,
a concrete transport failure yields the 500 error, and the page leaves the
selection empty after an error response. -/
theorem claim2_default_on_parse_failure_witness :
    autoSelectHandler .POST (some "news") (some "key") (.success "not json")
      = ⟨200, some (selectionsToJs defaultSelections), true⟩ ∧
    autoSelectHandler .POST (some "news") (some "key") .netError
      = ⟨500, some (errorJs "Failed to analyze content"), true⟩ ∧
    handleQuerySubmit {"male"} "news" (.resp false .null) = ∅ :=
  ⟨claim2_default_on_parse_failure.1 "news" "key" "not json" rfl rfl rfl,
   claim2_default_on_parse_failure.2.1 "news" "key" .netError rfl rfl (Or.inl rfl),
   claim2_default_on_parse_failure.2.2 {"male"} "news" .null (by decide)⟩

set_option maxRecDepth 40000 in
/-- C3: when the generate-report invocation of the inference service fails
in any way, the endpoint answers 500, the page then renders exactly the
constant `fallbackReport` — independent of the free text, the selection and
the previous report — and that constant contains the note that full
analysis was unavailable. -/
theorem claim3_fixed_fallback_report :
    (∀ (newsContent : String) (selectedTraits : List String) (apiKey : String)
        (outcome : InferenceOutcome),
      truthyStr (some newsContent) = true → truthyStr (some apiKey) = true →
      (outcome = .netError ∨ ∃ s, outcome = .httpError s) →
      generateReportHandler .POST (some newsContent) (some selectedTraits)
          (some apiKey) outcome
        = ⟨500, some (errorJs "Failed to generate analysis report"), true⟩) ∧
    (∀ (sel : Finset String) (prevReport : String) (outcome : ClientReportOutcome),
      sel.Nonempty → reportCallFailed outcome = true →
      (generateReport sel prevReport outcome).reportContent = fallbackReport) ∧
    (∃ pre post,
      fallbackReport = pre ++ "Full AI analysis temporarily unavailable" ++ post) := by
  refine ⟨?_, ?_, ?_⟩
  · intro newsContent selectedTraits apiKey outcome h1 h2 hfail
    rcases hfail with h | ⟨s, h⟩ <;> subst h <;>
      simp [generateReportHandler, h1, h2, truthyList]
  · intro sel prevReport outcome hsel hfail
    have hcard : sel.card ≠ 0 := by
      simpa [Finset.card_eq_zero] using Finset.nonempty_iff_ne_empty.mp hsel
    cases outcome with
    | throwErr => simp [generateReport, hcard]
    | resp ok r =>
      cases ok with
      | false => simp [generateReport, hcard]
      | true => simp [reportCallFailed] at hfail
  · exact ⟨"\n    <h4>Overall Analysis</h4>\n    <p>This content would likely resonate with the selected demographic based on their characteristics.</p>\n    \n    <h4>Engagement Patterns</h4>\n    <p>Audience engagement patterns suggest varying levels of interest and emotional response based on the selected traits.</p>\n    \n    <h4>Recommendations</h4>\n    <ul>\n        <li>Tailor messaging to address specific concerns of this demographic</li>\n        <li>Consider cultural and generational factors when crafting communication strategy</li>\n        <li>Monitor engagement metrics to validate assumptions</li>\n        <li>Test different messaging approaches with this audience segment</li>\n    </ul>\n    \n    <p><em>Note: ",
      ". Using general recommendations.</em></p>\n  ", rfl⟩

/-- C3 witness: a concrete transport failure at the endpoint, and a
concrete thrown page-side fetch with the nonempty selection
technology/male/24-30 rendering exactly the fallback. -/
theorem claim3_fixed_fallback_report_witness :
    generateReportHandler .POST (some "Company X raises prices")
        (some ["technology", "male", "24-30"]) (some "sk-test") .netError
      = ⟨500, some (errorJs "Failed to generate analysis report"), true⟩ ∧
    (generateReport {"technology", "male", "24-30"} "" .throwErr).reportContent
      = fallbackReport :=
  ⟨claim3_fixed_fallback_report.1 "Company X raises prices"
      ["technology", "male", "24-30"] "sk-test" .netError rfl rfl (Or.inl rfl),
   claim3_fixed_fallback_report.2.1 {"technology", "male", "24-30"} "" .throwErr
      (by decide) rfl⟩

/-- C4: both endpoints answer 405 to a non-POST non-OPTIONS method; a
missing required body field is answered 400 with no outbound call; an
absent service credential, with the body fields valid, is answered 500 with
no outbound call. -/
theorem claim4_request_validation :
    (∀ (m : Method) (nc key : Option String) (outcome : InferenceOutcome),
      m ≠ .POST → m ≠ .OPTIONS →
      autoSelectHandler m nc key outcome
        = ⟨405, some (errorJs "Method not allowed"), false⟩) ∧
    (∀ (m : Method) (nc : Option String) (st : Option (List String))
        (key : Option String) (outcome : InferenceOutcome),
      m ≠ .POST → m ≠ .OPTIONS →
      generateReportHandler m nc st key outcome
        = ⟨405, some (errorJs "Method not allowed"), false⟩) ∧
    (∀ (key : Option String) (outcome : InferenceOutcome),
      autoSelectHandler .POST none key outcome
        = ⟨400, some (errorJs "News content is required"), false⟩) ∧
    (∀ (nc : Option String) (st : Option (List String)) (key : Option String)
        (outcome : InferenceOutcome),
      nc = none ∨ st = none →
      generateReportHandler .POST nc st key outcome
        = ⟨400, some (errorJs "News content and selected traits are required"), false⟩) ∧
    (∀ (nc : String) (outcome : InferenceOutcome),
      truthyStr (some nc) = true →
      autoSelectHandler .POST (some nc) none outcome
        = ⟨500, some (errorJs "OpenAI API key not configured"), false⟩) ∧
    (∀ (nc : String) (st : List String) (outcome : InferenceOutcome),
      truthyStr (some nc) = true →
      generateReportHandler .POST (some nc) (some st) none outcome
        = ⟨500, some (errorJs "OpenAI API key not configured"), false⟩) := by
  refine ⟨?_, ?_, ?_, ?_, ?_, ?_⟩
  · intro m nc key outcome h1 h2
    cases m <;> simp_all [autoSelectHandler]
  · intro m nc st key outcome h1 h2
    cases m <;> simp_all [generateReportHandler]
  · intro key outcome
    simp [autoSelectHandler, truthyStr]
  · intro nc st key outcome h
    rcases h with h | h <;> subst h <;>
      simp [generateReportHandler, truthyStr, truthyList]
  · intro nc outcome h1
    have h1e : nc.isEmpty = false := by simpa [truthyStr] using h1
    simp [autoSelectHandler, truthyStr, h1e]
  · intro nc st outcome h1
    have h1e : nc.isEmpty = false := by simpa [truthyStr] using h1
    simp [generateReportHandler, truthyStr, truthyList, h1e]

/-- C4 witness: a GET request, a request with a missing field, and a
request without a configured credential, each answered concretely as the
theorem states. -/
theorem claim4_request_validation_witness :
    autoSelectHandler .GET (some "news") (some "key") .netError
      = ⟨405, some (errorJs "Method not allowed"), false⟩ ∧
    generateReportHandler .PUT (some "news") (some ["male"]) (some "key") .netError
      = ⟨405, some (errorJs "Method not allowed"), false⟩ ∧
    autoSelectHandler .POST none (some "key") .netError
      = ⟨400, some (errorJs "News content is required"), false⟩ ∧
    generateReportHandler .POST (some "news") none (some "key") .netError
      = ⟨400, some (errorJs "News content and selected traits are required"), false⟩ ∧
    autoSelectHandler .POST (some "news") none .netError
      = ⟨500, some (errorJs "OpenAI API key not configured"), false⟩ ∧
    generateReportHandler .POST (some "news") (some ["male"]) none .netError
      = ⟨500, some (errorJs "OpenAI API key not configured"), false⟩ :=
  ⟨claim4_request_validation.1 .GET (some "news") (some "key") .netError
      (by decide) (by decide),
   claim4_request_validation.2.1 .PUT (some "news") (some ["male"]) (some "key")
      .netError (by decide) (by decide),
   claim4_request_validation.2.2.1 (some "key") .netError,
   claim4_request_validation.2.2.2.1 (some "news") none (some "key") .netError
      (Or.inr rfl),
   claim4_request_validation.2.2.2.2.1 "news" .netError rfl,
   claim4_request_validation.2.2.2.2.2 "news" ["male"] .netError rfl⟩

/-- C5: a successfully parsed response is returned verbatim by the
endpoint, and the page-side applied selection treats each absent category
key as empty: it is exactly the set of labels in the present categories. -/
theorem claim5_missing_categories_empty :
    ∀ (content : String) (v : JsValue)
      (ages genders traits interests : Option (List String)),
      jsonParse content = some v →
      optField v "ages" ages → optField v "genders" genders →
      optField v "personality_traits" traits → optField v "interests" interests →
      (∀ (nc key : String), truthyStr (some nc) = true →
        truthyStr (some key) = true →
        (autoSelectHandler .POST (some nc) (some key) (.success content)).body
          = some v) ∧
      applyAutoSelections v
        = (ages.getD [] ++ genders.getD [] ++ traits.getD []
            ++ interests.getD []).toFinset := by
  intro content v ages genders traits interests hp hA hG hT hI
  constructor
  · intro nc key h1 h2
    rw [autoSelectHandler_success h1 h2, hp]
  · simp [applyAutoSelections, suggestionLabels,
      categoryLabels_of_optField hA, categoryLabels_of_optField hG,
      categoryLabels_of_optField hT, categoryLabels_of_optField hI]

/-- C5 witness: a response carrying only `ages` and `interests` is applied
as exactly those labels. -/
theorem claim5_missing_categories_empty_witness :
    (autoSelectHandler .POST (some "news") (some "key")
        (.success "\x7b\"ages\": [\"18-24\"], \"interests\": [\"music\"]\x7d")).body
      = some (JsValue.obj [("ages", JsValue.arr [JsValue.str "18-24"]),
                           ("interests", JsValue.arr [JsValue.str "music"])]) ∧
    applyAutoSelections
        (JsValue.obj [("ages", JsValue.arr [JsValue.str "18-24"]),
                      ("interests", JsValue.arr [JsValue.str "music"])])
      = (["18-24"] ++ [] ++ [] ++ ["music"]).toFinset := by
  have h := claim5_missing_categories_empty
    "\x7b\"ages\": [\"18-24\"], \"interests\": [\"music\"]\x7d"
    (JsValue.obj [("ages", JsValue.arr [JsValue.str "18-24"]),
                  ("interests", JsValue.arr [JsValue.str "music"])])
    (some ["18-24"]) none none (some ["music"]) rfl rfl rfl rfl rfl
  exact ⟨h.1 "news" "key" rfl rfl, h.2⟩

/-- C6: the option catalog embedded in the auto-select endpoint and the one
rendered by the page component list, category by category, exactly the same
labels in the same order. -/
theorem claim6_taxonomies_identical :
    fixedOptions.ages = characteristics.ages ∧
    fixedOptions.genders = characteristics.genders ∧
    fixedOptions.personality_traits = characteristics.personality ∧
    fixedOptions.interests = characteristics.interests :=
  ⟨rfl, rfl, rfl, rfl⟩

/-- C7: for every text returned by the inference call the response-handling
step of the auto-select handler produces an ordinary 200 response — its
body is the parsed value when the text parses and the fixed default
otherwise — so no input text makes it raise. -/
theorem claim7_response_handling_total :
    ∀ (content newsContent apiKey : String),
      truthyStr (some newsContent) = true → truthyStr (some apiKey) = true →
      (autoSelectHandler .POST (some newsContent) (some apiKey)
          (.success content)).status = 200 ∧
      ((jsonParse content = none ∧
        (autoSelectHandler .POST (some newsContent) (some apiKey)
            (.success content)).body = some (selectionsToJs defaultSelections)) ∨
       (∃ v, jsonParse content = some v ∧
        (autoSelectHandler .POST (some newsContent) (some apiKey)
            (.success content)).body = some v)) := by
  intro content newsContent apiKey h1 h2
  rw [autoSelectHandler_success h1 h2]
  cases hp : jsonParse content with
  | none => exact ⟨rfl, Or.inl ⟨rfl, rfl⟩⟩
  | some v => exact ⟨rfl, Or.inr ⟨v, rfl, rfl⟩⟩

/-- C7 witness: the empty inference response, which is unparsable, is
answered with the 200 default rather than an error. -/
theorem claim7_response_handling_total_witness :
    (autoSelectHandler .POST (some "news") (some "key")
        (.success "")).status = 200 ∧
    ((jsonParse "" = none ∧
      (autoSelectHandler .POST (some "news") (some "key")
          (.success "")).body = some (selectionsToJs defaultSelections)) ∨
     (∃ v, jsonParse "" = some v ∧
      (autoSelectHandler .POST (some "news") (some "key")
          (.success "")).body = some v)) :=
  claim7_response_handling_total "" "news" "key" rfl rfl

/-- C8: the auto-select endpoint always calls the inference service with a
strictly lower sampling temperature and a strictly smaller maximum output
size than the generate-report endpoint does. -/
theorem claim8_sampling_budget :
    ∀ (newsContent reportContent : String) (selectedTraits : List String),
      (autoSelectRequest newsContent).temperature
          < (generateReportRequest reportContent selectedTraits).temperature ∧
      (autoSelectRequest newsContent).max_tokens
          < (generateReportRequest reportContent selectedTraits).max_tokens := by
  intro newsContent reportContent selectedTraits
  constructor
  · show (3 / 10 : ℚ) < 7 / 10
    norm_num
  · show (500 : Nat) < 2000
    norm_num

/-- C9: the report endpoint accepts an empty `selectedTraits` array and
still issues the outbound inference call; only the page layer enforces
non-emptiness, by returning unchanged from `generateReport` and disabling
the generate button when nothing is selected. -/
theorem claim9_empty_traits_accepted :
    (∀ (nc key : String) (outcome : InferenceOutcome),
      truthyStr (some nc) = true → truthyStr (some key) = true →
      (generateReportHandler .POST (some nc) (some []) (some key)
          outcome).status ≠ 400 ∧
      (generateReportHandler .POST (some nc) (some []) (some key)
          outcome).calledInference = true) ∧
    (∀ (prevReport : String) (outcome : ClientReportOutcome),
      generateReport ∅ prevReport outcome = ⟨prevReport, false⟩) ∧
    (∀ (isLoading : Bool), generateBtnDisabled ∅ isLoading = true) := by
  refine ⟨?_, ?_, ?_⟩
  · intro nc key outcome h1 h2
    cases outcome <;> simp [generateReportHandler, h1, h2, truthyList]
  · intro prevReport outcome
    simp [generateReport]
  · intro isLoading
    simp [generateBtnDisabled]

/-- C9 witness: a concrete request with the empty traits array reaches the
inference call, and the page with an empty selection neither fetches nor
changes the report. -/
theorem claim9_empty_traits_accepted_witness :
    ((generateReportHandler .POST (some "news") (some []) (some "key")
        .netError).status ≠ 400 ∧
     (generateReportHandler .POST (some "news") (some []) (some "key")
        .netError).calledInference = true) ∧
    generateReport ∅ "old report" .throwErr = ⟨"old report", false⟩ ∧
    generateBtnDisabled ∅ false = true :=
  ⟨claim9_empty_traits_accepted.1 "news" "key" .netError rfl rfl,
   claim9_empty_traits_accepted.2.1 "old report" .throwErr,
   claim9_empty_traits_accepted.2.2 false⟩

/-- C10: toggling a characteristic twice restores the selection, one toggle
flips the membership of exactly the toggled label, and every other label
keeps its membership. -/
theorem claim10_toggle_involution :
    ∀ (s : Finset String) (v w : String), w ≠ v →
      toggleCharacteristic (toggleCharacteristic s v) v = s ∧
      (v ∈ toggleCharacteristic s v ↔ v ∉ s) ∧
      (w ∈ toggleCharacteristic s v ↔ w ∈ s) := by
  intro s v w hw
  by_cases hv : v ∈ s
  · refine ⟨?_, ?_, ?_⟩
    · simp [toggleCharacteristic, hv, Finset.insert_erase hv]
    · simp [toggleCharacteristic, hv]
    · simp [toggleCharacteristic, hv, Finset.mem_erase, hw]
  · refine ⟨?_, ?_, ?_⟩
    · simp [toggleCharacteristic, hv, Finset.erase_insert hv]
    · simp [toggleCharacteristic, hv]
    · simp [toggleCharacteristic, hv, Finset.mem_insert, hw]

/-- C10 witness: toggling `male` twice on the singleton selection `male`
restores it, one toggle removes `male`, and the membership of `female` is
untouched. -/
theorem claim10_toggle_involution_witness :
    toggleCharacteristic (toggleCharacteristic {"male"} "male") "male"
      = ({"male"} : Finset String) ∧
    ("male" ∈ toggleCharacteristic {"male"} "male"
      ↔ "male" ∉ ({"male"} : Finset String)) ∧
    ("female" ∈ toggleCharacteristic {"male"} "male"
      ↔ "female" ∈ ({"male"} : Finset String)) :=
  claim10_toggle_involution {"male"} "male" "female" (by decide)
